import Mathlib

/-!
Verification development for the upload-image repository.

The repository has three Rust binaries sharing one design:
a persistence step that writes an uploaded image to a timestamped file and
then copies it into a fixed latest-pointer file, a path-safety predicate
over Rust path components, and a websocket session handler that learns a
device identifier from the first text frame and then saves each binary
frame.  Everything below is a shallow embedding of that code: paths are
lists of characters, the filesystem is a map from path strings to byte
lists plus a set of directories, fallible I/O is driven by an explicit
environment saying which operation fails and with what message, and the
websocket loop is a recursion over the list of received frames.
-/

/-- One component of a parsed path, mirroring the four component shapes
Rust path parsing can produce for the relative paths this program handles
(root marker, current-directory marker, parent-directory marker, normal
piece). -/
inductive PathComponent where
  | rootDir : PathComponent
  | curDir : PathComponent
  | parentDir : PathComponent
  | normal (piece : List Char) : PathComponent
deriving DecidableEq

/-- Split a character list on the separator character, keeping empty
pieces, exactly as splitting a path string on every slash. -/
def splitSlash : List Char → List (List Char)
  | [] => [[]]
  | c :: cs =>
    let r := splitSlash cs
    if c = '/' then [] :: r
    else
      match r with
      | [] => [[c]]
      | p :: ps => (c :: p) :: ps

/-- Classify one raw piece between separators: empty pieces and lone dots
are normalized away, a double dot is a parent-directory component, and
anything else is a normal component. -/
def pieceToComponent (p : List Char) : Option PathComponent :=
  if p = [] then none
  else if p = ['.'] then none
  else if p = ['.', '.'] then some PathComponent.parentDir
  else some (PathComponent.normal p)

/-- The component decomposition of a path, following Rust path semantics
on Unix: a leading slash yields a root component, a leading lone-dot piece
yields a current-directory component, and the remaining pieces are
classified by pieceToComponent. -/
def pathComponents (l : List Char) : List PathComponent :=
  let raw := splitSlash l
  let root := if l.head? = some '/' then [PathComponent.rootDir] else []
  let lead := if raw.head? = some ['.'] then [PathComponent.curDir] else []
  root ++ lead ++ raw.filterMap pieceToComponent

/-- Whether a component is a normal component. -/
def PathComponent.isNormal : PathComponent → Bool
  | PathComponent.normal _ => true
  | _ => false

/-- The path-safety predicate of main.rs and http-server.rs: peek at the
first component, reject when it is not normal, then require that there is
exactly one component. -/
def path_is_valid (path : String) : Bool :=
  let comps := pathComponents path.data
  (match comps.head? with
   | some first => first.isNormal
   | none => true) && comps.length == 1

example : path_is_valid "device42" = true := by decide
example : path_is_valid "a.b" = true := by decide
example : path_is_valid "" = false := by decide
example : path_is_valid "." = false := by decide
example : path_is_valid ".." = false := by decide
example : path_is_valid "../etc" = false := by decide
example : path_is_valid "a/b" = false := by decide
example : path_is_valid "/" = false := by decide
example : path_is_valid "/a" = false := by decide
example : path_is_valid "foo/" = true := by decide
example : path_is_valid "foo/." = true := by decide
example : path_is_valid "./foo" = false := by decide
example : "ab".data = ['a', 'b'] := rfl

/-! ## Filesystem and fallible I/O model -/

/-- The filesystem state the persistence step manipulates: the contents of
regular files by full path string, and which directories exist. -/
structure Fs where
  files : String → Option (List Nat)
  dirs : String → Bool

/-- Create or truncate-and-overwrite the file at a path, as Rust file
creation followed by a complete copy does. -/
def Fs.setFile (fs : Fs) (p : String) (c : List Nat) : Fs :=
  { fs with files := fun q => if q = p then some c else fs.files q }

/-- Recursively ensure a directory exists; idempotent like create_dir_all. -/
def Fs.mkdirAll (fs : Fs) (d : String) : Fs :=
  { fs with dirs := fun q => if q = d then true else fs.dirs q }

/-- The empty filesystem, used as a concrete starting state. -/
def emptyFs : Fs := { files := fun _ => none, dirs := fun _ => false }

/-- Failure injection for the five fallible I/O operations of one
persistence call, in the order the code performs them.  A none entry means
the operation succeeds; a some entry carries the textual description the
resulting I/O error would render to.  The two copy operations additionally
carry how many bytes were transferred before the failure, so a failed copy
leaves a truncated prefix behind. -/
structure IoEnv where
  createTarget : Option String
  copyBody : Option (String × Nat)
  openTarget : Option String
  createLatest : Option String
  copyLatest : Option (String × Nat)

/-- The environment in which every I/O operation succeeds. -/
def okEnv : IoEnv := { createTarget := none, copyBody := none, openTarget := none,
                       createLatest := none, copyLatest := none }

/-- Path join as the code performs it on its relative inputs: interpose a
separator. -/
def pathJoin (a b : String) : String := a ++ "/" ++ b

/-- Uploads root of the HTTP binaries. -/
def UPLOADS_DIRECTORY : String := "uploads"

/-- Uploads root of the websocket binary. -/
def WS_UPLOADS_DIRECTORY : String := "uploads-websocket"

/-- The fixed latest-pointer filename. -/
def latestFilename : String := "aaa-latest.jpg"

/-- The timestamped image filename, with the formatted local time as a
parameter. -/
def imageFilename (ts : String) : String := "image-" ++ ts ++ ".jpg"

/-! ## Persistence: stream_to_file of main.rs

Steps in source order: validate the path, create the target file, copy the
body into it, re-open the target, create the latest file, copy the target
into the latest file.  The read performed by the final copy happens after
the latest file has been truncated, so the model reads the target contents
at that point.  Errors map to a status-and-body pair exactly as the
handler result does. -/

def stream_to_file (env : IoEnv) (fs : Fs) (path : String) (body : List Nat) :
    Except (Nat × String) Unit × Fs :=
  if ¬ path_is_valid path then (Except.error (400, "Invalid path"), fs)
  else
    match env.createTarget with
    | some m => (Except.error (500, m), fs)
    | none =>
      let target := pathJoin UPLOADS_DIRECTORY path
      let fs1 := fs.setFile target []
      match env.copyBody with
      | some mk => (Except.error (500, mk.1), fs1.setFile target (body.take mk.2))
      | none =>
        let fs2 := fs1.setFile target body
        match env.openTarget with
        | some m => (Except.error (500, m), fs2)
        | none =>
          match env.createLatest with
          | some m => (Except.error (500, m), fs2)
          | none =>
            let latest := pathJoin UPLOADS_DIRECTORY latestFilename
            let fs3 := fs2.setFile latest []
            let contents := (fs3.files target).getD []
            match env.copyLatest with
            | some mk => (Except.error (500, mk.1), fs3.setFile latest (contents.take mk.2))
            | none => (Except.ok (), fs3.setFile latest contents)

/-- The handler save_request_body of main.rs: format the timestamped
filename and delegate to stream_to_file. -/
def save_request_body (env : IoEnv) (fs : Fs) (ts : String) (body : List Nat) :
    Except (Nat × String) Unit × Fs :=
  stream_to_file env fs (imageFilename ts) body

/-! ## Persistence: stream_to_file of http-server.rs

The path-parameter variant.  The path_is_valid guard present in main.rs is
commented out in this file, so the serial number flows into the filesystem
path unchecked.  Directory creation uses expect in the source (fatal on
failure), so the model treats it as always succeeding. -/

def http_stream_to_file (env : IoEnv) (fs : Fs) (serial ts : String) (body : List Nat) :
    Except (Nat × String) Unit × Fs :=
  let fs0 := fs.mkdirAll (UPLOADS_DIRECTORY ++ "/" ++ serial)
  let path := pathJoin serial (imageFilename ts)
  match env.createTarget with
  | some m => (Except.error (500, m), fs0)
  | none =>
    let target := pathJoin UPLOADS_DIRECTORY path
    let fs1 := fs0.setFile target []
    match env.copyBody with
    | some mk => (Except.error (500, mk.1), fs1.setFile target (body.take mk.2))
    | none =>
      let fs2 := fs1.setFile target body
      match env.openTarget with
      | some m => (Except.error (500, m), fs2)
      | none =>
        match env.createLatest with
        | some m => (Except.error (500, m), fs2)
        | none =>
          let latest := pathJoin UPLOADS_DIRECTORY (pathJoin serial latestFilename)
          let fs3 := fs2.setFile latest []
          let contents := (fs3.files target).getD []
          match env.copyLatest with
          | some mk => (Except.error (500, mk.1), fs3.setFile latest (contents.take mk.2))
          | none => (Except.ok (), fs3.setFile latest contents)

/-! ## Persistence: save_image of websocket-server.rs

Identical persistence steps under the websocket uploads root; the result
error is just the textual description, and the success path emits one
diagnostic log line (the failure paths emit none, since every error is
propagated straight out by the question-mark operator). -/

def save_image (env : IoEnv) (fs : Fs) (serial ts : String) (data : List Nat) :
    Except String Unit × Fs × List String :=
  let fs0 := fs.mkdirAll (WS_UPLOADS_DIRECTORY ++ "/" ++ serial)
  match env.createTarget with
  | some m => (Except.error m, fs0, [])
  | none =>
    let target := pathJoin WS_UPLOADS_DIRECTORY (pathJoin serial (imageFilename ts))
    let fs1 := fs0.setFile target []
    match env.copyBody with
    | some mk => (Except.error mk.1, fs1.setFile target (data.take mk.2), [])
    | none =>
      let fs2 := fs1.setFile target data
      match env.openTarget with
      | some m => (Except.error m, fs2, [])
      | none =>
        match env.createLatest with
        | some m => (Except.error m, fs2, [])
        | none =>
          let latest := pathJoin WS_UPLOADS_DIRECTORY (pathJoin serial latestFilename)
          let fs3 := fs2.setFile latest []
          let contents := (fs3.files target).getD []
          match env.copyLatest with
          | some mk => (Except.error mk.1, fs3.setFile latest (contents.take mk.2), [])
          | none => (Except.ok (), fs3.setFile latest contents, ["image saved to " ++ serial])

/-! ## Websocket session handler -/

/-- The frame kinds of the websocket message enum. -/
inductive WsMessage where
  | text (t : String) : WsMessage
  | binary (d : List Nat) : WsMessage
  | ping (v : List Nat) : WsMessage
  | pong (v : List Nat) : WsMessage
  | close (c : Option (Nat × String)) : WsMessage
deriving DecidableEq

/-- The control-flow value the frame handlers return: break the receive
loop, or continue with a value. -/
inductive LoopFlow (a : Type) where
  | brk : LoopFlow a
  | cont (v : a) : LoopFlow a
deriving DecidableEq

/-- The log line printed for an incoming close frame, with or without a
close frame payload. -/
def closeLog (c : Option (Nat × String)) : String :=
  match c with
  | some cf => ">>> sent close with code " ++ toString cf.1 ++ " and reason " ++ cf.2
  | none => ">>> somehow sent close message without CloseFrame"

/-- get_text of websocket-server.rs: the first application frame must be a
text frame, whose payload continues the state machine; a close frame
breaks; anything else logs the fixed unexpected-message line and breaks. -/
def get_text (msg : WsMessage) : List String × LoopFlow String :=
  match msg with
  | WsMessage.text t => ([">>> sent str: " ++ t], LoopFlow.cont t)
  | WsMessage.close c => ([closeLog c], LoopFlow.brk)
  | _ => (["unexpected message"], LoopFlow.brk)

/-- The two log lines process_message prints on a binary frame before the
persistence attempt. -/
def binaryRecvLogs : List String :=
  [">>> sent binary bytes", "going to save received image to file"]

/-- process_message of websocket-server.rs: text, ping and pong frames are
logged and continue; a binary frame triggers save_image, whose result is
discarded (the source binds it to underscore), and continues; a close
frame breaks.  Result: emitted log lines, loop control flow, the
filesystem afterwards, and the persistence attempts made (serial number
and payload). -/
def process_message (env : IoEnv) (fs : Fs) (msg : WsMessage) (serial ts : String) :
    List String × LoopFlow Unit × Fs × List (String × List Nat) :=
  match msg with
  | WsMessage.text t => ([">>> sent str: " ++ t], LoopFlow.cont (), fs, [])
  | WsMessage.binary d =>
      let r := save_image env fs serial ts d
      (binaryRecvLogs ++ r.2.2, LoopFlow.cont (), r.2.1, [(serial, d)])
  | WsMessage.close c => ([closeLog c], LoopFlow.brk, fs, [])
  | WsMessage.pong _ => ([">>> sent pong"], LoopFlow.cont (), fs, [])
  | WsMessage.ping _ => ([">>> sent ping"], LoopFlow.cont (), fs, [])

/-- The receive loop of handle_socket over the remaining inbound frames
(none models a failed receive from an abrupt disconnect, list end models
the stream ending).  Returns the filesystem, the emitted logs, and the
persistence attempts. -/
def runLoop (env : IoEnv) (ts serial : String) :
    Fs → List (Option WsMessage) → Fs × List String × List (String × List Nat)
  | fs, [] => (fs, ["Websocket context destroyed"], [])
  | fs, none :: _ => (fs, ["client abruptly disconnected"], [])
  | fs, some msg :: rest =>
      let r := process_message env fs msg serial ts
      match r.2.1 with
      | LoopFlow.brk => (r.2.2.1, r.1, r.2.2.2)
      | LoopFlow.cont _ =>
          let rr := runLoop env ts serial r.2.2.1 rest
          (rr.1, r.1 ++ rr.2.1, r.2.2.2 ++ rr.2.2)

/-- The observable outcome of one websocket session. -/
structure WsRun where
  fs : Fs
  logs : List String
  sent : List WsMessage
  saves : List (String × List Nat)
  finalSerial : String

/-- handle_socket of websocket-server.rs: send the initial ping (pingOk
says whether that send succeeded); then the first received frame goes
through get_text, setting the serial number on a text frame and returning
otherwise; then the receive loop processes the remaining frames.  The
serial number starts as the placeholder undefined string. -/
def handle_socket (env : IoEnv) (ts : String) (pingOk : Bool) (fs : Fs)
    (frames : List (Option WsMessage)) : WsRun :=
  if pingOk = false then
    { fs := fs, logs := ["Could not send ping"], sent := [], saves := [],
      finalSerial := "undefined" }
  else
    let sent := [WsMessage.ping [1, 2, 3]]
    let logs0 := ["Pinged"]
    match frames with
    | [] =>
        let rr := runLoop env ts "undefined" fs []
        { fs := rr.1, logs := logs0 ++ rr.2.1, sent := sent, saves := rr.2.2,
          finalSerial := "undefined" }
    | none :: _ =>
        { fs := fs, logs := logs0 ++ ["client abruptly disconnected"], sent := sent,
          saves := [], finalSerial := "undefined" }
    | some msg :: rest =>
        let g := get_text msg
        match g.2 with
        | LoopFlow.brk =>
            { fs := fs, logs := logs0 ++ g.1, sent := sent, saves := [],
              finalSerial := "undefined" }
        | LoopFlow.cont t =>
            let rr := runLoop env ts t fs rest
            { fs := rr.1, logs := logs0 ++ g.1 ++ rr.2.1, sent := sent, saves := rr.2.2,
              finalSerial := t }

/-- Whether the needle occurs at the front of the haystack. -/
def charsLead : List Char → List Char → Bool
  | [], _ => true
  | _ :: _, [] => false
  | a :: as, b :: bs => a == b && charsLead as bs

/-- Whether the needle occurs anywhere inside the haystack. -/
def occursIn (needle : List Char) : List Char → Bool
  | [] => charsLead needle []
  | c :: cs => charsLead needle (c :: cs) || occursIn needle cs

/-! ## Helper lemmas -/

theorem Fs.files_setFile_same (fs : Fs) (p : String) (c : List Nat) :
    (fs.setFile p c).files p = some c := by
  simp [Fs.setFile]

theorem Fs.files_setFile_other (fs : Fs) (p q : String) (c : List Nat) (h : q ≠ p) :
    (fs.setFile p c).files q = fs.files q := by
  simp [Fs.setFile, h]

theorem Fs.dirs_setFile (fs : Fs) (p : String) (c : List Nat) :
    (fs.setFile p c).dirs = fs.dirs := rfl

theorem Fs.files_mkdirAll (fs : Fs) (d : String) :
    (fs.mkdirAll d).files = fs.files := rfl

theorem append_left_ne (p : String) {a b : String} (h : a ≠ b) : p ++ a ≠ p ++ b := by
  intro he
  apply h
  apply String.ext
  have hd := congrArg String.data he
  rw [String.data_append, String.data_append] at hd
  exact List.append_cancel_left hd

theorem pathJoin_ne (a : String) {x y : String} (h : x ≠ y) : pathJoin a x ≠ pathJoin a y :=
  append_left_ne (a ++ "/") h

theorem imageFilename_ne_latest (ts : String) : imageFilename ts ≠ latestFilename := by
  intro h
  have hd := congrArg String.data h
  rw [imageFilename, latestFilename] at hd
  rw [String.data_append, String.data_append] at hd
  have h1 : "image-".data = ['i', 'm', 'a', 'g', 'e', '-'] := rfl
  have h2 : ".jpg".data = ['.', 'j', 'p', 'g'] := rfl
  have h3 : "aaa-latest.jpg".data
      = ['a', 'a', 'a', '-', 'l', 'a', 't', 'e', 's', 't', '.', 'j', 'p', 'g'] := rfl
  rw [h1, h2, h3] at hd
  have h4 := congrArg List.head? hd
  simp at h4

theorem splitSlash_no_slash (l : List Char) (h : '/' ∉ l) : splitSlash l = [l] := by
  induction l with
  | nil => rfl
  | cons c cs ih =>
      have hc : c ≠ '/' := by
        intro hc
        exact h (hc ▸ List.mem_cons_self c cs)
      have hcs : '/' ∉ cs := fun hm => h (List.mem_cons_of_mem c hm)
      simp only [splitSlash, ih hcs]
      simp [hc]

theorem path_is_valid_iff (s : String) :
    path_is_valid s = true ↔ ∃ p, pathComponents s.data = [PathComponent.normal p] := by
  unfold path_is_valid
  cases h : pathComponents s.data with
  | nil => simp
  | cons a l =>
      cases l with
      | nil =>
          cases a <;> simp [PathComponent.isNormal]
      | cons b l2 =>
          simp [PathComponent.isNormal]

/-! ## Claims about the path safety check -/

/-- C3: every input string that is empty, or that decomposes into more
than one path component, or that contains a parent-directory component,
is rejected by path_is_valid. -/
theorem c3_path_safety_rejects (s : String)
    (h : s = "" ∨ 1 < (pathComponents s.data).length
      ∨ PathComponent.parentDir ∈ pathComponents s.data) :
    path_is_valid s = false := by
  rw [Bool.eq_false_iff]
  intro hv
  obtain ⟨p, hp⟩ := (path_is_valid_iff s).mp hv
  rcases h with h | h | h
  · subst h
    have h0 : pathComponents "".data = [] := rfl
    rw [h0] at hp
    exact List.noConfusion hp
  · rw [hp] at h
    simp at h
  · rw [hp] at h
    simp at h

/-- C3 witness: the empty string, a two-component string and a string with
a parent-directory component are all rejected. -/
theorem c3_path_safety_rejects_witness :
    path_is_valid "" = false ∧ path_is_valid "a/b" = false
    ∧ path_is_valid "../etc" = false :=
  ⟨c3_path_safety_rejects "" (Or.inl rfl),
   c3_path_safety_rejects "a/b" (Or.inr (Or.inl (by decide))),
   c3_path_safety_rejects "../etc" (Or.inr (Or.inr (by decide)))⟩

/-- C7: every nonempty string with no separator character that is not the
current-directory or parent-directory token is accepted by
path_is_valid. -/
theorem c7_single_token_valid (s : String)
    (h0 : s.data ≠ []) (h1 : '/' ∉ s.data)
    (h2 : s.data ≠ ['.']) (h3 : s.data ≠ ['.', '.']) :
    path_is_valid s = true := by
  rw [path_is_valid_iff]
  refine ⟨s.data, ?_⟩
  unfold pathComponents
  rw [splitSlash_no_slash s.data h1]
  have hr : ¬ s.data.head? = some '/' := by
    intro hc
    exact h1 (List.mem_of_mem_head? hc)
  have hl : ¬ ([s.data] : List (List Char)).head? = some ['.'] := by
    simpa using h2
  simp only [if_neg hr, if_neg hl]
  simp [pieceToComponent, h0, h2, h3]

/-- C7 witness: the two single-token examples of the specification are
accepted. -/
theorem c7_single_token_valid_witness :
    path_is_valid "device42" = true ∧ path_is_valid "a.b" = true :=
  ⟨c7_single_token_valid "device42" (by decide) (by decide) (by decide) (by decide),
   c7_single_token_valid "a.b" (by decide) (by decide) (by decide) (by decide)⟩

/-- C9: strings containing the separator character can still be accepted
by path_is_valid, because they normalize to a single normal component, so
acceptance does not guarantee the absence of separators. -/
theorem c9_separator_accepted :
    path_is_valid "foo/" = true ∧ path_is_valid "foo/." = true
    ∧ '/' ∈ "foo/".data ∧ '/' ∈ "foo/.".data := by
  decide

/-! ## Claim about the path-parameter HTTP variant -/

/-- C1: evaluation of the path-parameter variant at the traversal
identifier shows the claim fails on the code: the guard of main.rs is
commented out in http-server.rs, so the call succeeds instead of
returning the 400 Invalid-path response, a directory is created under the
traversal path, and the image file is written there, even though
path_is_valid would have rejected the identifier. -/
theorem c1_missing_validation :
    path_is_valid "../etc" = false
    ∧ (http_stream_to_file okEnv emptyFs "../etc" "20250101-120000" [7, 7]).1
        = Except.ok ()
    ∧ (http_stream_to_file okEnv emptyFs "../etc" "20250101-120000" [7, 7]).2.dirs
        "uploads/../etc" = true
    ∧ (http_stream_to_file okEnv emptyFs "../etc" "20250101-120000" [7, 7]).2.files
        "uploads/../etc/image-20250101-120000.jpg" = some [7, 7] := by
  refine ⟨by decide, rfl, rfl, ?_⟩
  decide

/-! ## Claims about the persistence operation -/

/-- C6: the result mapping of stream_to_file in main.rs.  An input failing
the path check yields the 400 response with the fixed Invalid-path body
and an unchanged filesystem, before any I/O step runs; with a valid path,
completion of every step yields the empty success, and the first failing
I/O step yields a 500 response whose body is that failure's textual
description. -/
theorem c6_result_mapping (env : IoEnv) (fs : Fs) (path : String) (body : List Nat) :
    (¬ path_is_valid path = true →
        stream_to_file env fs path body = (Except.error (400, "Invalid path"), fs))
    ∧ (path_is_valid path = true →
        ((env.createTarget = none → env.copyBody = none → env.openTarget = none →
            env.createLatest = none → env.copyLatest = none →
            (stream_to_file env fs path body).1 = Except.ok ())
        ∧ (∀ m, env.createTarget = some m →
            stream_to_file env fs path body = (Except.error (500, m), fs))
        ∧ (∀ mk, env.createTarget = none → env.copyBody = some mk →
            (stream_to_file env fs path body).1 = Except.error (500, mk.1))
        ∧ (∀ m, env.createTarget = none → env.copyBody = none →
            env.openTarget = some m →
            (stream_to_file env fs path body).1 = Except.error (500, m))
        ∧ (∀ m, env.createTarget = none → env.copyBody = none →
            env.openTarget = none → env.createLatest = some m →
            (stream_to_file env fs path body).1 = Except.error (500, m))
        ∧ (∀ mk, env.createTarget = none → env.copyBody = none →
            env.openTarget = none → env.createLatest = none → env.copyLatest = some mk →
            (stream_to_file env fs path body).1 = Except.error (500, mk.1)))) := by
  constructor
  · intro h
    simp [stream_to_file, h]
  · intro h
    refine ⟨?_, ?_, ?_, ?_, ?_, ?_⟩ <;> intros <;> simp_all [stream_to_file]

/-- C6 witness: a traversal path gets the 400 response and leaves the
filesystem untouched, the all-success environment gets the empty success,
and a failing first step gets a 500 response with its description. -/
theorem c6_result_mapping_witness :
    stream_to_file okEnv emptyFs ".." [1] = (Except.error (400, "Invalid path"), emptyFs)
    ∧ (stream_to_file okEnv emptyFs "dev1" [1]).1 = Except.ok ()
    ∧ (stream_to_file { okEnv with createTarget := some "disk full" } emptyFs "dev1" [1]).1
        = Except.error (500, "disk full") := by
  refine ⟨?_, ?_, ?_⟩
  · exact (c6_result_mapping okEnv emptyFs ".." [1]).1 (by decide)
  · exact ((c6_result_mapping okEnv emptyFs "dev1" [1]).2 (by decide)).1 rfl rfl rfl rfl rfl
  · exact congrArg Prod.fst
      (((c6_result_mapping { okEnv with createTarget := some "disk full" } emptyFs
        "dev1" [1]).2 (by decide)).2.1 "disk full" rfl)

/-- C2: every persistence call that returns success leaves the timestamped
stored image file and the latest-pointer file in place with contents equal
to the ingested payload, hence byte-identical to each other and non-empty
whenever the payload is non-empty; stated for the main.rs HTTP handler
and for the websocket save_image. -/
theorem c2_persist_success :
    (∀ env fs ts body, (save_request_body env fs ts body).1 = Except.ok () →
        (save_request_body env fs ts body).2.files
            (pathJoin UPLOADS_DIRECTORY (imageFilename ts)) = some body
        ∧ (save_request_body env fs ts body).2.files
            (pathJoin UPLOADS_DIRECTORY latestFilename) = some body)
    ∧ (∀ env fs serial ts dta, (save_image env fs serial ts dta).1 = Except.ok () →
        (save_image env fs serial ts dta).2.1.files
            (pathJoin WS_UPLOADS_DIRECTORY (pathJoin serial (imageFilename ts))) = some dta
        ∧ (save_image env fs serial ts dta).2.1.files
            (pathJoin WS_UPLOADS_DIRECTORY (pathJoin serial latestFilename)) = some dta) := by
  constructor
  · intro env fs ts body h
    have hne : pathJoin UPLOADS_DIRECTORY (imageFilename ts)
        ≠ pathJoin UPLOADS_DIRECTORY latestFilename :=
      pathJoin_ne _ (imageFilename_ne_latest ts)
    unfold save_request_body stream_to_file at h ⊢
    by_cases hP : path_is_valid (imageFilename ts)
    · rcases env with ⟨ct, cb, ot, cl, cpl⟩
      cases ct <;> cases cb <;> cases ot <;> cases cl <;> cases cpl <;>
        simp_all [Fs.setFile, hne]
    · simp [hP] at h
  · intro env fs serial ts dta h
    have hne : pathJoin WS_UPLOADS_DIRECTORY (pathJoin serial (imageFilename ts))
        ≠ pathJoin WS_UPLOADS_DIRECTORY (pathJoin serial latestFilename) :=
      pathJoin_ne _ (pathJoin_ne _ (imageFilename_ne_latest ts))
    unfold save_image at h ⊢
    rcases env with ⟨ct, cb, ot, cl, cpl⟩
    cases ct <;> cases cb <;> cases ot <;> cases cl <;> cases cpl <;>
      simp_all [Fs.setFile, Fs.mkdirAll, hne]

/-- C2 witness: a concrete successful call of each variant leaves both
files holding the payload. -/
theorem c2_persist_success_witness :
    ((save_request_body okEnv emptyFs "20250101-120000" [3, 4]).2.files
        (pathJoin UPLOADS_DIRECTORY (imageFilename "20250101-120000")) = some [3, 4]
    ∧ (save_request_body okEnv emptyFs "20250101-120000" [3, 4]).2.files
        (pathJoin UPLOADS_DIRECTORY latestFilename) = some [3, 4])
    ∧ ((save_image okEnv emptyFs "cam7" "20250101-120000" [5]).2.1.files
        (pathJoin WS_UPLOADS_DIRECTORY (pathJoin "cam7" (imageFilename "20250101-120000")))
          = some [5]
    ∧ (save_image okEnv emptyFs "cam7" "20250101-120000" [5]).2.1.files
        (pathJoin WS_UPLOADS_DIRECTORY (pathJoin "cam7" latestFilename)) = some [5]) :=
  ⟨c2_persist_success.1 okEnv emptyFs "20250101-120000" [3, 4] rfl,
   c2_persist_success.2 okEnv emptyFs "cam7" "20250101-120000" [5] rfl⟩

/-- C10: when a persistence call fails only after the body has been fully
copied into the stored image file — at the re-open, at the creation of the
latest-pointer file, or during the copy into it — the call reports an
error, but the stored image file is still present with exactly the
ingested payload; nothing rolls it back or deletes it.  Stated for the
main.rs HTTP handler and for the websocket save_image. -/
theorem c10_no_rollback :
    (∀ env fs ts body, path_is_valid (imageFilename ts) = true →
        env.createTarget = none → env.copyBody = none →
        (env.openTarget ≠ none ∨ env.createLatest ≠ none ∨ env.copyLatest ≠ none) →
        (∃ m, (save_request_body env fs ts body).1 = Except.error (500, m))
        ∧ (save_request_body env fs ts body).2.files
            (pathJoin UPLOADS_DIRECTORY (imageFilename ts)) = some body)
    ∧ (∀ env fs serial ts dta,
        env.createTarget = none → env.copyBody = none →
        (env.openTarget ≠ none ∨ env.createLatest ≠ none ∨ env.copyLatest ≠ none) →
        (∃ m, (save_image env fs serial ts dta).1 = Except.error m)
        ∧ (save_image env fs serial ts dta).2.1.files
            (pathJoin WS_UPLOADS_DIRECTORY (pathJoin serial (imageFilename ts)))
              = some dta) := by
  constructor
  · intro env fs ts body hP hct hcb hfail
    have hne : pathJoin UPLOADS_DIRECTORY (imageFilename ts)
        ≠ pathJoin UPLOADS_DIRECTORY latestFilename :=
      pathJoin_ne _ (imageFilename_ne_latest ts)
    unfold save_request_body stream_to_file
    rcases env with ⟨ct, cb, ot, cl, cpl⟩
    simp only at hct hcb
    subst hct
    subst hcb
    cases ot <;> cases cl <;> cases cpl <;>
      simp_all [Fs.setFile, hne]
  · intro env fs serial ts dta hct hcb hfail
    have hne : pathJoin WS_UPLOADS_DIRECTORY (pathJoin serial (imageFilename ts))
        ≠ pathJoin WS_UPLOADS_DIRECTORY (pathJoin serial latestFilename) :=
      pathJoin_ne _ (pathJoin_ne _ (imageFilename_ne_latest ts))
    unfold save_image
    rcases env with ⟨ct, cb, ot, cl, cpl⟩
    simp only at hct hcb
    subst hct
    subst hcb
    cases ot <;> cases cl <;> cases cpl <;>
      simp_all [Fs.setFile, Fs.mkdirAll, hne]

/-- C10 witness: with the latest-pointer creation failing, each variant
reports an error while the stored image file keeps the payload. -/
theorem c10_no_rollback_witness :
    ((∃ m, (save_request_body { okEnv with createLatest := some "boom" } emptyFs
        "20250101-120000" [9]).1 = Except.error (500, m))
    ∧ (save_request_body { okEnv with createLatest := some "boom" } emptyFs
        "20250101-120000" [9]).2.files
        (pathJoin UPLOADS_DIRECTORY (imageFilename "20250101-120000")) = some [9])
    ∧ ((∃ m, (save_image { okEnv with createLatest := some "boom" } emptyFs "cam7"
        "20250101-120000" [9]).1 = Except.error m)
    ∧ (save_image { okEnv with createLatest := some "boom" } emptyFs "cam7"
        "20250101-120000" [9]).2.1.files
        (pathJoin WS_UPLOADS_DIRECTORY (pathJoin "cam7" (imageFilename "20250101-120000")))
          = some [9]) :=
  ⟨c10_no_rollback.1 { okEnv with createLatest := some "boom" } emptyFs
      "20250101-120000" [9] (by decide) rfl rfl (Or.inr (Or.inl (by simp))),
   c10_no_rollback.2 { okEnv with createLatest := some "boom" } emptyFs "cam7"
      "20250101-120000" [9] rfl rfl (Or.inr (Or.inl (by simp)))⟩

/-! ## Claims about the websocket session handler -/

/-- C4: when the first application frame is neither a text frame nor a
close frame, the handler logs the fixed unexpected-message line and
returns: the filesystem is untouched, no persistence attempt is made, and
any later frames are never processed (the run equals the run that stops at
that frame). -/
theorem c4_first_frame_not_text (env : IoEnv) (ts : String) (fs : Fs) (msg : WsMessage)
    (rest : List (Option WsMessage))
    (ht : ∀ t, msg ≠ WsMessage.text t) (hc : ∀ c, msg ≠ WsMessage.close c) :
    (handle_socket env ts true fs (some msg :: rest)).fs = fs
    ∧ (handle_socket env ts true fs (some msg :: rest)).saves = []
    ∧ "unexpected message" ∈ (handle_socket env ts true fs (some msg :: rest)).logs
    ∧ handle_socket env ts true fs (some msg :: rest)
        = handle_socket env ts true fs [some msg] := by
  cases msg with
  | text t => exact absurd rfl (ht t)
  | close c => exact absurd rfl (hc c)
  | binary d => exact ⟨rfl, rfl, by simp [handle_socket, get_text], rfl⟩
  | ping v => exact ⟨rfl, rfl, by simp [handle_socket, get_text], rfl⟩
  | pong v => exact ⟨rfl, rfl, by simp [handle_socket, get_text], rfl⟩

/-- C4 witness: a binary frame sent before any text frame closes the
session with the unexpected-message log, persists nothing, and a further
queued frame is never processed. -/
theorem c4_first_frame_not_text_witness :
    (handle_socket okEnv "t0" true emptyFs
        [some (WsMessage.binary [5]), some (WsMessage.binary [6])]).fs = emptyFs
    ∧ (handle_socket okEnv "t0" true emptyFs
        [some (WsMessage.binary [5]), some (WsMessage.binary [6])]).saves = []
    ∧ "unexpected message" ∈ (handle_socket okEnv "t0" true emptyFs
        [some (WsMessage.binary [5]), some (WsMessage.binary [6])]).logs
    ∧ handle_socket okEnv "t0" true emptyFs
        [some (WsMessage.binary [5]), some (WsMessage.binary [6])]
        = handle_socket okEnv "t0" true emptyFs [some (WsMessage.binary [5])] :=
  c4_first_frame_not_text okEnv "t0" emptyFs (WsMessage.binary [5])
    [some (WsMessage.binary [6])]
    (fun _ h => WsMessage.noConfusion h) (fun _ h => WsMessage.noConfusion h)

/-- Every persistence attempt the receive loop makes carries the serial
number the loop was entered with. -/
theorem runLoop_saves_serial (env : IoEnv) (ts serial : String)
    (frames : List (Option WsMessage)) :
    ∀ (fs : Fs) (p : String × List Nat),
      p ∈ (runLoop env ts serial fs frames).2.2 → p.1 = serial := by
  induction frames with
  | nil => intro fs p hp; simp [runLoop] at hp
  | cons hd tl ih =>
      intro fs p hp
      match hd with
      | none => simp [runLoop] at hp
      | some (WsMessage.text t) =>
          simp only [runLoop, process_message, List.nil_append] at hp
          exact ih _ p hp
      | some (WsMessage.binary d) =>
          simp only [runLoop, process_message] at hp
          rcases List.mem_append.mp hp with h | h
          · rw [List.mem_singleton.mp h]
          · exact ih _ p h
      | some (WsMessage.ping v) =>
          simp only [runLoop, process_message, List.nil_append] at hp
          exact ih _ p hp
      | some (WsMessage.pong v) =>
          simp only [runLoop, process_message, List.nil_append] at hp
          exact ih _ p hp
      | some (WsMessage.close c) =>
          simp [runLoop, process_message] at hp

/-- C8: when the first frame is a text frame, its payload becomes the
device identifier of the whole session: the final identifier equals that
payload and every persistence attempt of the session uses it, whatever
later frames — including further text frames — arrive. -/
theorem c8_identifier_set_once (env : IoEnv) (ts : String) (fs : Fs) (s : String)
    (rest : List (Option WsMessage)) :
    (handle_socket env ts true fs (some (WsMessage.text s) :: rest)).finalSerial = s
    ∧ ∀ p ∈ (handle_socket env ts true fs (some (WsMessage.text s) :: rest)).saves,
        p.1 = s := by
  constructor
  · rfl
  · intro p hp
    have hs : (handle_socket env ts true fs (some (WsMessage.text s) :: rest)).saves
        = (runLoop env ts s fs rest).2.2 := rfl
    rw [hs] at hp
    exact runLoop_saves_serial env ts s rest fs p hp

/-- C8 witness: a session that receives a second text frame between two
binary frames still attributes both persistence attempts to the first
identifier. -/
theorem c8_identifier_set_once_witness :
    (handle_socket okEnv "t0" true emptyFs
        [some (WsMessage.text "cam7"), some (WsMessage.binary [9]),
         some (WsMessage.text "other"), some (WsMessage.binary [8])]).finalSerial = "cam7"
    ∧ ("cam7", [8]).1 = "cam7" :=
  ⟨(c8_identifier_set_once okEnv "t0" emptyFs "cam7"
      [some (WsMessage.binary [9]), some (WsMessage.text "other"),
       some (WsMessage.binary [8])]).1,
   (c8_identifier_set_once okEnv "t0" emptyFs "cam7"
      [some (WsMessage.binary [9]), some (WsMessage.text "other"),
       some (WsMessage.binary [8])]).2 ("cam7", [8]) (by decide)⟩

/-- A failing persistence call emits no log line at all: every error path
of save_image propagates the error without printing. -/
theorem save_image_error_logs (env : IoEnv) (fs : Fs) (serial ts : String) (d : List Nat)
    (m : String) (h : (save_image env fs serial ts d).1 = Except.error m) :
    (save_image env fs serial ts d).2.2 = [] := by
  unfold save_image at h ⊢
  rcases env with ⟨ct, cb, ot, cl, cpl⟩
  cases ct <;> cases cb <;> cases ot <;> cases cl <;> cases cpl <;> simp_all

/-- C5, amended: a binary frame in the active state triggers a persistence
attempt with the learned identifier and the frame payload; when the
attempt fails, the failure is silently discarded — the emitted log lines
are exactly the two fixed pre-save lines, with no trace of the error — the
loop continues with the remaining frames, and the peer is never sent
anything beyond the initial ping, whatever happens. -/
theorem c5_binary_failure_behaviour :
    (∀ env fs serial ts d m, (save_image env fs serial ts d).1 = Except.error m →
        process_message env fs (WsMessage.binary d) serial ts
          = (binaryRecvLogs, LoopFlow.cont (),
             (save_image env fs serial ts d).2.1, [(serial, d)]))
    ∧ (∀ env fs serial ts d rest,
        runLoop env ts serial fs (some (WsMessage.binary d) :: rest)
          = ((runLoop env ts serial (save_image env fs serial ts d).2.1 rest).1,
             (binaryRecvLogs ++ (save_image env fs serial ts d).2.2)
               ++ (runLoop env ts serial (save_image env fs serial ts d).2.1 rest).2.1,
             (serial, d)
               :: (runLoop env ts serial (save_image env fs serial ts d).2.1 rest).2.2))
    ∧ (∀ env ts pingOk fs frames,
        (handle_socket env ts pingOk fs frames).sent
          = if pingOk then [WsMessage.ping [1, 2, 3]] else []) := by
  refine ⟨?_, ?_, ?_⟩
  · intro env fs serial ts d m h
    have hl := save_image_error_logs env fs serial ts d m h
    simp [process_message, hl]
  · intro env fs serial ts d rest
    simp [runLoop, process_message]
  · intro env ts pingOk fs frames
    cases pingOk
    · rfl
    · cases frames with
      | nil => rfl
      | cons hd rest =>
          cases hd with
          | none => rfl
          | some msg => cases msg <;> rfl

/-- The failure environment of the concrete C5 run: the copy of the body
into the stored image file fails after zero bytes with description
boom7. -/
def envBoom : IoEnv := { okEnv with copyBody := some ("boom7", 0) }

/-- C5 witness: the concrete failing persistence attempt continues the
loop, records the attempt and logs exactly the two fixed lines. -/
theorem c5_binary_failure_behaviour_witness :
    process_message envBoom emptyFs (WsMessage.binary [1, 2, 3]) "cam1" "t0"
      = (binaryRecvLogs, LoopFlow.cont (),
         (save_image envBoom emptyFs "cam1" "t0" [1, 2, 3]).2.1, [("cam1", [1, 2, 3])]) :=
  c5_binary_failure_behaviour.1 envBoom emptyFs "cam1" "t0" [1, 2, 3] "boom7" rfl

/-- C5 counterexample: in a session whose one binary frame's persistence
attempt fails with description boom7, the attempt is made, yet no log line
of the whole session contains that description anywhere — the failure is
not logged, contradicting the claim as stated. -/
theorem c5_counterexample :
    (save_image envBoom emptyFs "cam1" "t0" [1, 2, 3]).1 = Except.error "boom7"
    ∧ (handle_socket envBoom "t0" true emptyFs
        [some (WsMessage.text "cam1"), some (WsMessage.binary [1, 2, 3])]).saves
        = [("cam1", [1, 2, 3])]
    ∧ ((handle_socket envBoom "t0" true emptyFs
        [some (WsMessage.text "cam1"), some (WsMessage.binary [1, 2, 3])]).logs.all
        (fun l => !occursIn "boom7".data l.data)) = true := by
  refine ⟨rfl, rfl, ?_⟩
  decide
